import Mathlib

set_option maxHeartbeats 1000000

/- Shallow embedding of src/automation/main.go (mc-server-wrapper).
   External effects (HTTP HEAD, dotenv load, environment lookup, subprocess
   runs, object-store upload) are modelled by environments that record the
   outcome each external call would produce; every function of the source
   becomes a pure Lean function of such an environment, returning the trace
   of observable operations it performs together with its Go error result. -/

/-- Go error values: a bare message (fmt.Errorf without %w) or a message
wrapping a cause (fmt.Errorf with %w applied to a non-nil error). -/
inductive GoError where
  | msg (s : String)
  | wrap (s : String) (cause : GoError)
deriving DecidableEq, Repr

/-- fmt.Errorf with %w applied to a Go error that may be nil: with a nil
argument no cause is attached. -/
def wrapOpt (s : String) : Option GoError → GoError
  | none => GoError.msg s
  | some e => GoError.wrap s e

/-- HTTP response as used by validateStartup: only the status code is read. -/
structure HTTPResponse where
  statusCode : Nat
deriving DecidableEq, Repr

/-- The three preflight checks of validateStartup, in source order
(main.go lines 21-46). -/
inductive Check where
  | network
  | credential
  | runtime
deriving DecidableEq, Repr

/-- Outcomes of the external calls made by validateStartup: the transport
result and response of client.Head (line 24), the godotenv.Load result
(line 30), the GH_PAT value (line 33, empty string when unset), and the
result of running the java version probe (lines 38-39). -/
structure ValidateEnv where
  headErr : Option GoError
  headResp : Option HTTPResponse
  dotenvErr : Option GoError
  ghToken : String
  javaErr : Option GoError
deriving DecidableEq, Repr

/-- A nil-pointer dereference, the only runtime fault this embedding can
encounter (reading resp.StatusCode from a nil response). -/
inductive Fault where
  | nilDeref
deriving DecidableEq, Repr

/-- Evaluation of the condition at main.go line 25:
err != nil || resp.StatusCode != http.StatusOK.
The Go or-operator short-circuits, so resp is dereferenced only when err is
nil; dereferencing a nil resp would be the fault case. Returns true exactly
when the network check fails. -/
def headCondEval (e : Option GoError) (r : Option HTTPResponse) : Except Fault Bool :=
  if e.isSome then Except.ok true
  else
    match r with
    | none => Except.error Fault.nilDeref
    | some resp => Except.ok (resp.statusCode != 200)

/-- Shallow embedding of validateStartup (main.go lines 21-46): the list of
checks executed in order, and the Go error result (none means success). -/
def validateStartup (env : ValidateEnv) : Except Fault (List Check × Option GoError) := do
  let failed ← headCondEval env.headErr env.headResp
  if failed then
    return ([Check.network], some (wrapOpt "failed to confirm network connection" env.headErr))
  else
    match env.dotenvErr with
    | some e =>
        return ([Check.network, Check.credential],
          some (GoError.wrap "failed to load env file" e))
    | none =>
      if env.ghToken = "" then
        return ([Check.network, Check.credential],
          some (GoError.msg "failed to load github access token"))
      else
        match env.javaErr with
        | some e =>
            return ([Check.network, Check.credential, Check.runtime],
              some (GoError.wrap "failed to find JDK installation" e))
        | none =>
            return ([Check.network, Check.credential, Check.runtime], none)

/-- The network check passes: transport success and status code 200
(http.StatusOK), per main.go line 25. -/
def networkOk (env : ValidateEnv) : Bool :=
  env.headErr.isNone && env.headResp.any (fun r => r.statusCode == 200)

/-- The credential check passes: env file loaded and GH_PAT non-empty
(main.go lines 30-35). -/
def credentialOk (env : ValidateEnv) : Bool :=
  env.dotenvErr.isNone && env.ghToken != ""

/-- The runtime check passes: the java version probe ran with zero exit
status (main.go lines 38-42). -/
def runtimeOk (env : ValidateEnv) : Bool :=
  env.javaErr.isNone

/-- The error validateStartup builds for a credential failure, wrapping the
cause when the dotenv load produced one (main.go lines 30-35). -/
def credentialErrOf (env : ValidateEnv) : GoError :=
  match env.dotenvErr with
  | some e => GoError.wrap "failed to load env file" e
  | none => GoError.msg "failed to load github access token"

/-- Spec-side definition, following the spec wording: an HTTP-success status
code is one of the 2xx success class. -/
def httpSuccessStatus (n : Nat) : Prop := 200 ≤ n ∧ n < 300

/-- Outcome of waiting on the subprocess: it exited with some status, or the
wait itself failed. -/
inductive WaitOutcome where
  | exited (status : Nat)
  | waitFailed (e : GoError)
deriving DecidableEq, Repr

/-- The Go error returned by cmd.Wait: nil for a normal zero-status exit, an
ExitError carrying the status for a non-zero exit, and the underlying error
when the wait itself failed. -/
def waitResult : WaitOutcome → Option GoError
  | WaitOutcome.exited 0 => none
  | WaitOutcome.exited s => some (GoError.msg ("exit status " ++ toString s))
  | WaitOutcome.waitFailed e => some e

/-- Outcomes of the external calls made by shutdownServer: the result of the
stdin write (main.go line 70) and of waiting on the process (line 74). -/
structure StopEnv where
  writeErr : Option GoError
  wait : WaitOutcome
deriving DecidableEq, Repr

/-- Observable operations of shutdownServer: a write of a string to the
control channel, and the blocking wait on process exit. -/
inductive StopEvent where
  | write (s : String)
  | waitExit
deriving DecidableEq, Repr

/-- Shallow embedding of shutdownServer (main.go lines 67-78): the write of
the stop command happens first; the wait starts only after the write
returned without error; each failure is wrapped and returned. -/
def shutdownServer (env : StopEnv) : List StopEvent × Option GoError :=
  match env.writeErr with
  | some e =>
      ([StopEvent.write "stop\n"],
        some (GoError.wrap "error writing to server process stdin" e))
  | none =>
      match waitResult env.wait with
      | some e =>
          ([StopEvent.write "stop\n", StopEvent.waitExit],
            some (GoError.wrap "server process failed to close" e))
      | none =>
          ([StopEvent.write "stop\n", StopEvent.waitExit], none)

/-- Recognizer for write events of the stop trace. -/
def isWriteEv : StopEvent → Bool
  | StopEvent.write _ => true
  | StopEvent.waitExit => false

/-- Where a standard stream of the subprocess is connected. -/
inductive StdStream where
  | inherited
  | piped
deriving DecidableEq, Repr

/-- The platform process attributes set on the command: Setpgid places the
subprocess in its own process group (main.go line 53). -/
structure SysProcAttr where
  setpgid : Bool
deriving DecidableEq, Repr

/-- The command descriptor built by startServer before launching: program,
argument list, working directory, stream connections and process
attributes. -/
structure CmdSpec where
  prog : String
  args : List String
  dir : String
  stdout : StdStream
  stderr : StdStream
  sysAttr : SysProcAttr
  stdinPiped : Bool
deriving DecidableEq, Repr

/-- Shallow embedding of the command constructed by startServer (main.go
lines 48-58): java with fixed arguments (heap ceiling -Xmx4G, the jar, and
nogui for headless mode), working directory from SERVER_JAR_PATH, stdout and
stderr connected to the supervisor process streams, stdin piped as the
control channel, Setpgid set. -/
def startServerCmd (serverJarPath : String) : CmdSpec :=
  { prog := "java"
    args := ["-Xmx4G", "-jar", "server.jar", "nogui"]
    dir := serverJarPath
    stdout := StdStream.inherited
    stderr := StdStream.inherited
    sysAttr := { setpgid := true }
    stdinPiped := true }

/-- Outcomes of the fallible steps of startServer: acquiring the stdin pipe
(main.go line 55) and starting the process (line 60). -/
structure StartEnv where
  pipeErr : Option GoError
  startErr : Option GoError
deriving DecidableEq, Repr

/-- The error result of startServer (main.go lines 48-64): the pipe is
acquired first, then the process is started; the first failure is wrapped
and returned. -/
def startServerResult (env : StartEnv) : Option GoError :=
  match env.pipeErr with
  | some e => some (GoError.wrap "failed to acquire pipe for server process" e)
  | none =>
      match env.startErr with
      | some e => some (GoError.wrap "failed to start server instance" e)
      | none => none

/-- A decimal digit character, as Go prints decimal digits (code 48 is the
character zero). -/
def digit (d : Nat) : Char := Char.ofNat (48 + d)

/-- A natural number rendered zero-padded to two decimal digits, as Go
Format renders the layout fields 01, 02, 15, 04, 05 for in-range values. -/
def pad2 (n : Nat) : List Char := [digit (n / 10 % 10), digit (n % 10)]

/-- A natural number rendered zero-padded to four decimal digits, as Go
Format renders the layout field 2006 for years 0 through 9999. -/
def pad4 (n : Nat) : List Char :=
  [digit (n / 1000 % 10), digit (n / 100 % 10), digit (n / 10 % 10), digit (n % 10)]

/-- A wall-clock instant at the granularity the program observes: calendar
fields down to seconds, plus the sub-second component (not rendered by the
second-resolution layout used at main.go line 114). -/
structure Timestamp where
  year : Nat
  month : Nat
  day : Nat
  hour : Nat
  minute : Nat
  second : Nat
  nanos : Nat
deriving DecidableEq, Repr

/-- The field ranges a real wall-clock time satisfies (year kept below 10000
so the Go layout 2006 renders exactly four digits). -/
def Timestamp.valid (t : Timestamp) : Prop :=
  t.year < 10000 ∧ 1 ≤ t.month ∧ t.month ≤ 12 ∧ 1 ≤ t.day ∧ t.day ≤ 31 ∧
    t.hour < 24 ∧ t.minute < 60 ∧ t.second < 60

/-- Two instants fall within the same second: all calendar fields down to
seconds agree; the sub-second components may differ. -/
def Timestamp.sameSecond (t1 t2 : Timestamp) : Prop :=
  t1.year = t2.year ∧ t1.month = t2.month ∧ t1.day = t2.day ∧
    t1.hour = t2.hour ∧ t1.minute = t2.minute ∧ t1.second = t2.second

/-- Embedding of Go Format with layout 2006-01-02T15:04:05 (main.go line
114) for in-range timestamps: four-digit zero-padded year, two-digit
zero-padded remaining fields, with dash, T and colon separators; the
sub-second component is not rendered. -/
def formatChars (t : Timestamp) : List Char :=
  pad4 t.year ++ ('-' :: pad2 t.month) ++ ('-' :: pad2 t.day) ++
    ('T' :: pad2 t.hour) ++ (':' :: pad2 t.minute) ++ (':' :: pad2 t.second)

/-- The formatted timestamp after colon replacement: the same zero-padded
fields with dash separators (the date-time separator T is untouched). -/
def cleanChars (t : Timestamp) : List Char :=
  pad4 t.year ++ ('-' :: pad2 t.month) ++ ('-' :: pad2 t.day) ++
    ('T' :: pad2 t.hour) ++ ('-' :: pad2 t.minute) ++ ('-' :: pad2 t.second)

/-- strings.ReplaceAll with the single-character pattern colon and
replacement dash (main.go line 115): every colon is replaced. -/
def replaceColon (l : List Char) : List Char :=
  l.map (fun c => if c = ':' then '-' else c)

/-- The fixed leading part of the archive name (main.go line 116). -/
def namePrefixChars : List Char := "mc-world-backup-".data

/-- The fixed trailing part of the archive name (main.go line 116). -/
def nameSuffixChars : List Char := ".tar.xz".data

/-- The characters of the archive name built by backupWorld (main.go lines
113-116): fixed parts around the colon-cleaned formatted timestamp. -/
def archiveChars (t : Timestamp) : List Char :=
  namePrefixChars ++ replaceColon (formatChars t) ++ nameSuffixChars

/-- The archive name as a string. -/
def archiveName (t : Timestamp) : String := String.mk (archiveChars t)

/-- Outcomes of the external calls made by uploadFile (main.go lines
80-109): client creation, opening the local file, whether the destination
object already exists, the copy, and closing the writer. -/
structure UploadEnv where
  clientErr : Option GoError
  openErr : Option GoError
  objectExists : Bool
  copyErr : Option GoError
  closeErr : Option GoError
deriving DecidableEq, Repr

/-- Shallow embedding of uploadFile (main.go lines 80-109). The object
handle carries the DoesNotExist precondition (line 98), so an already
existing destination object makes the conditional write fail: the rejection
surfaces as the error returned by Writer.Close, wrapped like the other
failures of the function. -/
def uploadFile (env : UploadEnv) : Option GoError :=
  match env.clientErr with
  | some e => some (GoError.wrap "storage.NewClient" e)
  | none =>
      match env.openErr with
      | some e => some (GoError.wrap "os.Open" e)
      | none =>
          match env.copyErr with
          | some e => some (GoError.wrap "io.Copy" e)
          | none =>
              if env.objectExists then
                some (GoError.wrap "Writer.Close"
                  (GoError.msg "googleapi: Error 412: conditionNotMet"))
              else
                match env.closeErr with
                | some e => some (GoError.wrap "Writer.Close" e)
                | none => none

/-- Outcomes of the external calls made by backupWorld: the instant read
from the clock (line 114), the WORLD_NAME and SERVER_JAR_PATH variables,
the result of the compression command (line 122), the upload environment,
and the result of the delete command (line 135). -/
structure BackupEnv where
  now : Timestamp
  worldName : String
  serverJarPath : String
  compressErr : Option GoError
  upload : UploadEnv
  deleteErr : Option GoError
deriving DecidableEq, Repr

/-- Observable operations of the backup step: running the compression tool,
calling the upload, and running the delete of the local archive. -/
inductive BackupEvent where
  | compress (archive worldDir dir : String)
  | uploadCall (bucket object file : String)
  | delete (archive dir : String)
deriving DecidableEq, Repr

/-- path.Join of two nonempty already-clean path elements, as backupWorld
uses it at main.go line 128. -/
def pathJoin (a b : String) : String := a ++ "/" ++ b

/-- Shallow embedding of backupWorld (main.go lines 111-140). The error
returned by uploadFile at line 129 is discarded by the source - the
function proceeds to the delete regardless of the upload outcome; this
embedding preserves that. -/
def backupWorld (env : BackupEnv) : List BackupEvent × Option GoError :=
  let nameString := archiveName env.now
  match env.compressErr with
  | some e =>
      ([BackupEvent.compress nameString env.worldName env.serverJarPath],
        some (GoError.wrap "failed to compress world files" e))
  | none =>
      let _uploadResult := uploadFile env.upload
      let evs := [BackupEvent.compress nameString env.worldName env.serverJarPath,
        BackupEvent.uploadCall "world-archives" nameString
          (pathJoin env.serverJarPath nameString)]
      match env.deleteErr with
      | some e =>
          (evs ++ [BackupEvent.delete nameString env.serverJarPath],
            some (GoError.wrap "failed to delete local world archive" e))
      | none =>
          (evs ++ [BackupEvent.delete nameString env.serverJarPath], none)

/-- The two termination signal kinds the program registers for (main.go
line 145): terminate-request and interrupt. -/
inductive Signal where
  | sigterm
  | sigint
deriving DecidableEq, Repr

/-- Outcomes of all external calls of one program run: the validation,
start, stop and backup environments, plus the signal eventually delivered
on the channel. Both startServer and backupWorld read SERVER_JAR_PATH; the
shared value lives in the backup environment. -/
structure MainEnv where
  venv : ValidateEnv
  start : StartEnv
  sig : Signal
  stop : StopEnv
  backup : BackupEnv
deriving DecidableEq, Repr

/-- Observable operations of main, in program order: registering the signal
channel (with its capacity), the validation checks, starting the
subprocess, the blocking receive of a signal, the stop operations and the
backup operations. -/
inductive MainEvent where
  | register (sigs : List Signal) (capacity : Nat)
  | check (c : Check)
  | startProc (cmd : CmdSpec)
  | receive (s : Signal)
  | stopEv (e : StopEvent)
  | backupEv (e : BackupEvent)
deriving DecidableEq, Repr

/-- How the program run ends: the final success line (exit status 0), or
log.Fatal (exit status 1). -/
inductive ExitStatus where
  | success
  | fatalExit
deriving DecidableEq, Repr

/-- Shallow embedding of main (main.go lines 142-170): the single-slot
signal channel is registered first for SIGTERM and SIGINT, then validation,
start, one blocking receive, the stop routine and the backup routine run in
order, each fatal on error except as the callees decide. Returns the event
trace and the exit status. -/
def mainRun (env : MainEnv) : Except Fault (List MainEvent × ExitStatus) := do
  let reg := MainEvent.register [Signal.sigterm, Signal.sigint] 1
  let (vchecks, vres) ← validateStartup env.venv
  let vevs := vchecks.map MainEvent.check
  match vres with
  | some _ => return (reg :: vevs, ExitStatus.fatalExit)
  | none =>
      match startServerResult env.start with
      | some _ =>
          return ((reg :: vevs) ++
              [MainEvent.startProc (startServerCmd env.backup.serverJarPath)],
            ExitStatus.fatalExit)
      | none =>
          let pre := (reg :: vevs) ++
            [MainEvent.startProc (startServerCmd env.backup.serverJarPath),
              MainEvent.receive env.sig]
          let stopPair := shutdownServer env.stop
          let stopEvs := stopPair.1.map MainEvent.stopEv
          match stopPair.2 with
          | some _ => return (pre ++ stopEvs, ExitStatus.fatalExit)
          | none =>
              let bPair := backupWorld env.backup
              let bEvs := bPair.1.map MainEvent.backupEv
              match bPair.2 with
              | some _ => return (pre ++ stopEvs ++ bEvs, ExitStatus.fatalExit)
              | none => return (pre ++ stopEvs ++ bEvs, ExitStatus.success)

/-- The number of blocking receives of the signal channel in a trace. -/
def recvCount (tr : List MainEvent) : Nat :=
  (tr.filter fun e =>
    match e with
    | MainEvent.receive _ => true
    | _ => false).length

/-- Erase which signal kind a receive event carried, keeping everything
else: two traces equal under this map differ at most in the received
signal kind. -/
def eraseSigPayload : MainEvent → MainEvent
  | MainEvent.receive _ => MainEvent.receive Signal.sigterm
  | e => e

/-- Validation succeeded: some list of checks ran and the result is nil. -/
def validationPassed (env : ValidateEnv) : Prop :=
  ∃ cs, validateStartup env = Except.ok (cs, none)

/-- A sample wall-clock instant used to evaluate the model concretely. -/
def sampleTime : Timestamp :=
  { year := 2024, month := 5, day := 3, hour := 10, minute := 20, second := 30, nanos := 0 }

/-- The sample instant with a different sub-second component only. -/
def sampleTimeLater : Timestamp :=
  { sampleTime with nanos := 999999 }

/-- The sample instant one second later. -/
def sampleTimeNextSec : Timestamp :=
  { sampleTime with second := 31 }

/-- A validation environment in which all external calls succeed. -/
def okValidateEnv : ValidateEnv :=
  { headErr := none, headResp := some { statusCode := 200 }, dotenvErr := none,
    ghToken := "abc", javaErr := none }

/-- A validation environment with transport success and status 204: the
request succeeded and the status is in the 2xx success class, but it is not
200. -/
def status204Env : ValidateEnv :=
  { okValidateEnv with headResp := some { statusCode := 204 } }

/-- An upload environment in which every call succeeds and the destination
object does not yet exist. -/
def okUploadEnv : UploadEnv :=
  { clientErr := none, openErr := none, objectExists := false, copyErr := none,
    closeErr := none }

/-- A backup environment in which compression succeeds, the upload fails
because the destination object already exists, and the delete succeeds. -/
def conflictBackupEnv : BackupEnv :=
  { now := sampleTime, worldName := "world", serverJarPath := "/srv/minecraft",
    compressErr := none, upload := { okUploadEnv with objectExists := true },
    deleteErr := none }

/-- A backup environment in which compression and upload succeed and the
delete of the local archive fails. -/
def cleanupFailBackupEnv : BackupEnv :=
  { now := sampleTime, worldName := "world", serverJarPath := "/srv/minecraft",
    compressErr := none, upload := okUploadEnv,
    deleteErr := some (GoError.msg "exit status 1") }

/-- A full-run environment whose only failure is the delete of the local
archive after a successful compression and upload. -/
def cleanupFailMainEnv : MainEnv :=
  { venv := okValidateEnv, start := { pipeErr := none, startErr := none },
    sig := Signal.sigterm, stop := { writeErr := none, wait := WaitOutcome.exited 0 },
    backup := cleanupFailBackupEnv }

/-- A full-run environment in which every external call succeeds. -/
def okMainEnv : MainEnv :=
  { venv := okValidateEnv, start := { pipeErr := none, startErr := none },
    sig := Signal.sigterm, stop := { writeErr := none, wait := WaitOutcome.exited 0 },
    backup := { cleanupFailBackupEnv with deleteErr := none } }

/-- A full-run environment in which the process wait reports a non-zero
exit, so the stop step fails. -/
def stopFailMainEnv : MainEnv :=
  { okMainEnv with stop := { writeErr := none, wait := WaitOutcome.exited 137 } }

/-- The event trace of a run of stopFailMainEnv: everything up to and
including the failed stop, and no backup operation. -/
def stopFailTrace : List MainEvent :=
  [MainEvent.register [Signal.sigterm, Signal.sigint] 1,
    MainEvent.check Check.network, MainEvent.check Check.credential,
    MainEvent.check Check.runtime,
    MainEvent.startProc (startServerCmd "/srv/minecraft"),
    MainEvent.receive Signal.sigterm,
    MainEvent.stopEv (StopEvent.write "stop\n"), MainEvent.stopEv StopEvent.waitExit]

/-- The event trace of a successful run of okMainEnv that received the
signal s: the full lifecycle ending in the three backup operations. -/
def okTrace (s : Signal) : List MainEvent :=
  [MainEvent.register [Signal.sigterm, Signal.sigint] 1,
    MainEvent.check Check.network, MainEvent.check Check.credential,
    MainEvent.check Check.runtime,
    MainEvent.startProc (startServerCmd "/srv/minecraft"),
    MainEvent.receive s,
    MainEvent.stopEv (StopEvent.write "stop\n"), MainEvent.stopEv StopEvent.waitExit,
    MainEvent.backupEv
      (BackupEvent.compress (archiveName sampleTime) "world" "/srv/minecraft"),
    MainEvent.backupEv (BackupEvent.uploadCall "world-archives"
      (archiveName sampleTime) (pathJoin "/srv/minecraft" (archiveName sampleTime))),
    MainEvent.backupEv (BackupEvent.delete (archiveName sampleTime) "/srv/minecraft")]

/-- Bind on Except applied to a success value reduces to the
continuation. -/
theorem exceptBind_ok {ε α β : Type} (a : α) (f : α → Except ε β) :
    (Except.ok a >>= f : Except ε β) = f a := rfl

/-- Pure on Except is the success constructor. -/
theorem exceptPure {ε α : Type} (a : α) : (pure a : Except ε α) = Except.ok a := rfl

/-- Claim C10: the network-reachability check never dereferences an absent
HTTP response: the condition at main.go line 25 short-circuits, so under the
Go client contract (a nil transport error implies a non-nil response) the
condition always evaluates without fault, and when the transport failed the
status code is never inspected - the condition is already a failure. -/
theorem headCond_no_nil_deref (e : Option GoError) (r : Option HTTPResponse)
    (hcontract : e = none → r.isSome) :
    (∃ b, headCondEval e r = Except.ok b) ∧
    (e.isSome → headCondEval e r = Except.ok true) := by
  cases e with
  | some err => exact ⟨⟨true, rfl⟩, fun _ => rfl⟩
  | none =>
      cases r with
      | none => simp at hcontract
      | some resp =>
          refine ⟨⟨resp.statusCode != 200, rfl⟩, ?_⟩
          intro h
          simp at h

/-- Witness for headCond_no_nil_deref at a concrete outcome. -/
theorem headCond_no_nil_deref_witness :
    ((none : Option GoError) = none →
        (some { statusCode := 200 } : Option HTTPResponse).isSome) ∧
    ((∃ b, headCondEval none (some { statusCode := 200 }) = Except.ok b) ∧
      ((none : Option GoError).isSome →
        headCondEval none (some { statusCode := 200 }) = Except.ok true)) :=
  ⟨fun _ => rfl, headCond_no_nil_deref none (some { statusCode := 200 }) (fun _ => rfl)⟩

/-- Claim C6 counterexample: with transport success and status 204 - an
HTTP-success status code in the 2xx class - the network check nevertheless
fails and validation stops at the network check, so the check passing is
not equivalent to transport success plus an HTTP-success status. -/
theorem network_check_iff_fails_at_204 :
    httpSuccessStatus 204 ∧
    validateStartup status204Env = Except.ok ([Check.network],
      some (GoError.msg "failed to confirm network connection")) := by
  exact ⟨⟨by norm_num, by norm_num⟩, rfl⟩

/-- Claim C6 (amended): the network check passes iff the transport-level
request succeeded and the response status is exactly 200 (http.StatusOK):
a transport error, and any status other than 200 - success class or not -
each make validation return the network-unavailable error wrapping the
transport cause and stop at the network check, and only transport success
with status 200 lets validation proceed to the credential check. -/
theorem network_check_amended (env : ValidateEnv)
    (hc : env.headErr = none → env.headResp.isSome) :
    ((env.headErr = none ∧ env.headResp = some { statusCode := 200 }) →
      ∃ rest res, validateStartup env =
        Except.ok (Check.network :: Check.credential :: rest, res)) ∧
    (¬ (env.headErr = none ∧ env.headResp = some { statusCode := 200 }) →
      validateStartup env = Except.ok ([Check.network],
        some (wrapOpt "failed to confirm network connection" env.headErr))) := by
  obtain ⟨he, hr, hd, ht, hj⟩ := env
  constructor
  · rintro ⟨he200, hr200⟩
    simp only at he200 hr200
    subst he200; subst hr200
    cases hd with
    | some e => exact ⟨[], some (GoError.wrap "failed to load env file" e), rfl⟩
    | none =>
        by_cases hts : ht = ""
        · subst hts
          exact ⟨[], some (GoError.msg "failed to load github access token"), rfl⟩
        · cases hj with
          | some e =>
              refine ⟨[Check.runtime],
                some (GoError.wrap "failed to find JDK installation" e), ?_⟩
              simp [validateStartup, headCondEval, exceptBind_ok, exceptPure, hts]
          | none =>
              refine ⟨[Check.runtime], none, ?_⟩
              simp [validateStartup, headCondEval, exceptBind_ok, exceptPure, hts]
  · intro hne
    cases he with
    | some e => rfl
    | none =>
        have hsome := hc rfl
        cases hr with
        | none => simp at hsome
        | some resp =>
            have hne200 : resp.statusCode ≠ 200 := by
              intro h
              exact hne ⟨rfl, by cases resp; simp_all⟩
            simp [validateStartup, headCondEval, exceptBind_ok, exceptPure, wrapOpt, hne200]

/-- Witness for network_check_amended at a concrete outcome. -/
theorem network_check_amended_witness :
    (okValidateEnv.headErr = none → okValidateEnv.headResp.isSome) ∧
    (((okValidateEnv.headErr = none ∧
        okValidateEnv.headResp = some { statusCode := 200 }) →
      ∃ rest res, validateStartup okValidateEnv =
        Except.ok (Check.network :: Check.credential :: rest, res)) ∧
    (¬ (okValidateEnv.headErr = none ∧
          okValidateEnv.headResp = some { statusCode := 200 }) →
      validateStartup okValidateEnv = Except.ok ([Check.network],
        some (wrapOpt "failed to confirm network connection" okValidateEnv.headErr)))) :=
  ⟨fun _ => rfl, network_check_amended okValidateEnv (fun _ => rfl)⟩

/-- Claim C5: preflight validation runs network, then credential, then
runtime, short-circuiting at the first failure: whichever check fails
first, the later checks are not executed and the result is that check's
wrapped error; when all three pass, all three ran in order and the result
is success. -/
theorem validateStartup_fail_fast (env : ValidateEnv)
    (hc : env.headErr = none → env.headResp.isSome) :
    (networkOk env = false →
      validateStartup env = Except.ok ([Check.network],
        some (wrapOpt "failed to confirm network connection" env.headErr))) ∧
    (networkOk env = true → credentialOk env = false →
      validateStartup env = Except.ok ([Check.network, Check.credential],
        some (credentialErrOf env))) ∧
    (networkOk env = true → credentialOk env = true → runtimeOk env = false →
      ∃ e, env.javaErr = some e ∧
        validateStartup env = Except.ok ([Check.network, Check.credential, Check.runtime],
          some (GoError.wrap "failed to find JDK installation" e))) ∧
    (networkOk env = true → credentialOk env = true → runtimeOk env = true →
      validateStartup env = Except.ok ([Check.network, Check.credential, Check.runtime],
        none)) := by
  obtain ⟨he, hr, hd, ht, hj⟩ := env
  refine ⟨?_, ?_, ?_, ?_⟩
  · intro hnet
    cases he with
    | some e => rfl
    | none =>
        have hsome := hc rfl
        cases hr with
        | none => simp at hsome
        | some resp =>
            have : resp.statusCode ≠ 200 := by
              simp [networkOk] at hnet
              intro h
              cases resp
              simp_all
            simp [validateStartup, headCondEval, exceptBind_ok, exceptPure, wrapOpt, this]
  · intro hnet hcred
    have h200 : he = none ∧ ∃ resp, hr = some resp ∧ resp.statusCode = 200 := by
      cases he with
      | some e => simp [networkOk] at hnet
      | none =>
          cases hr with
          | none => simp [networkOk] at hnet
          | some resp =>
              simp [networkOk] at hnet
              exact ⟨rfl, resp, rfl, hnet⟩
    obtain ⟨he0, resp, hr0, hresp⟩ := h200
    subst he0; subst hr0
    cases hd with
    | some e => simp [validateStartup, headCondEval, exceptBind_ok, exceptPure, hresp, credentialErrOf]
    | none =>
        have hts : ht = "" := by
          simp [credentialOk] at hcred
          exact hcred
        subst hts
        simp [validateStartup, headCondEval, exceptBind_ok, exceptPure, hresp, credentialErrOf]
  · intro hnet hcred hrt
    have h200 : he = none ∧ ∃ resp, hr = some resp ∧ resp.statusCode = 200 := by
      cases he with
      | some e => simp [networkOk] at hnet
      | none =>
          cases hr with
          | none => simp [networkOk] at hnet
          | some resp =>
              simp [networkOk] at hnet
              exact ⟨rfl, resp, rfl, hnet⟩
    obtain ⟨he0, resp, hr0, hresp⟩ := h200
    subst he0; subst hr0
    have hd0 : hd = none := by
      cases hd with
      | some e => simp [credentialOk] at hcred
      | none => rfl
    subst hd0
    have hts : ht ≠ "" := by
      simp [credentialOk] at hcred
      exact hcred
    cases hj with
    | some e =>
        refine ⟨e, rfl, ?_⟩
        simp [validateStartup, headCondEval, exceptBind_ok, exceptPure, hresp, hts]
    | none => simp [runtimeOk] at hrt
  · intro hnet hcred hrt
    have h200 : he = none ∧ ∃ resp, hr = some resp ∧ resp.statusCode = 200 := by
      cases he with
      | some e => simp [networkOk] at hnet
      | none =>
          cases hr with
          | none => simp [networkOk] at hnet
          | some resp =>
              simp [networkOk] at hnet
              exact ⟨rfl, resp, rfl, hnet⟩
    obtain ⟨he0, resp, hr0, hresp⟩ := h200
    subst he0; subst hr0
    have hd0 : hd = none := by
      cases hd with
      | some e => simp [credentialOk] at hcred
      | none => rfl
    subst hd0
    have hts : ht ≠ "" := by
      simp [credentialOk] at hcred
      exact hcred
    have hj0 : hj = none := by
      cases hj with
      | some e => simp [runtimeOk] at hrt
      | none => rfl
    subst hj0
    simp [validateStartup, headCondEval, exceptBind_ok, exceptPure, hresp, hts]

/-- Claim C4: shutdownServer writes exactly one newline-terminated stop
command (the string stop followed by newline) to the control channel; the
wait occurs only after the write returned successfully, so the write
completes before the wait begins; stop succeeds iff the write succeeded and
the wait reported a normal zero-status exit, and otherwise returns an error
wrapping the cause. -/
theorem shutdownServer_contract (env : StopEnv) :
    ((shutdownServer env).1.filter isWriteEv = [StopEvent.write "stop\n"]) ∧
    (StopEvent.waitExit ∈ (shutdownServer env).1 →
      (shutdownServer env).1 = [StopEvent.write "stop\n", StopEvent.waitExit]) ∧
    (StopEvent.waitExit ∈ (shutdownServer env).1 ↔ env.writeErr = none) ∧
    ((shutdownServer env).2 = none ↔
      env.writeErr = none ∧ env.wait = WaitOutcome.exited 0) ∧
    (∀ e, env.writeErr = some e →
      (shutdownServer env).2 =
        some (GoError.wrap "error writing to server process stdin" e)) ∧
    (∀ e, env.writeErr = none → waitResult env.wait = some e →
      (shutdownServer env).2 =
        some (GoError.wrap "server process failed to close" e)) := by
  obtain ⟨we, w⟩ := env
  cases we with
  | some e => simp [shutdownServer, isWriteEv]
  | none =>
      cases w with
      | exited s =>
          cases s with
          | zero => simp [shutdownServer, waitResult, isWriteEv]
          | succ n => simp [shutdownServer, waitResult, isWriteEv]
      | waitFailed e => simp [shutdownServer, waitResult, isWriteEv]

/-- Witness for shutdownServer_contract at a concrete outcome. -/
theorem shutdownServer_contract_witness :
    (((shutdownServer { writeErr := none, wait := WaitOutcome.exited 0 }).1.filter
        isWriteEv = [StopEvent.write "stop\n"]) ∧
    (StopEvent.waitExit ∈
        (shutdownServer { writeErr := none, wait := WaitOutcome.exited 0 }).1 →
      (shutdownServer { writeErr := none, wait := WaitOutcome.exited 0 }).1 =
        [StopEvent.write "stop\n", StopEvent.waitExit]) ∧
    (StopEvent.waitExit ∈
        (shutdownServer { writeErr := none, wait := WaitOutcome.exited 0 }).1 ↔
      ({ writeErr := none, wait := WaitOutcome.exited 0 } : StopEnv).writeErr = none) ∧
    ((shutdownServer { writeErr := none, wait := WaitOutcome.exited 0 }).2 = none ↔
      ({ writeErr := none, wait := WaitOutcome.exited 0 } : StopEnv).writeErr = none ∧
        ({ writeErr := none, wait := WaitOutcome.exited 0 } : StopEnv).wait =
          WaitOutcome.exited 0) ∧
    (∀ e, ({ writeErr := none, wait := WaitOutcome.exited 0 } : StopEnv).writeErr =
        some e →
      (shutdownServer { writeErr := none, wait := WaitOutcome.exited 0 }).2 =
        some (GoError.wrap "error writing to server process stdin" e)) ∧
    (∀ e, ({ writeErr := none, wait := WaitOutcome.exited 0 } : StopEnv).writeErr =
          none →
      waitResult ({ writeErr := none, wait := WaitOutcome.exited 0 } : StopEnv).wait =
        some e →
      (shutdownServer { writeErr := none, wait := WaitOutcome.exited 0 }).2 =
        some (GoError.wrap "server process failed to close" e))) :=
  shutdownServer_contract { writeErr := none, wait := WaitOutcome.exited 0 }

/-- Claim C8: startServer spawns java with the fixed argument list selecting
headless mode (nogui) and the fixed maximum heap size (-Xmx4G), the working
directory taken from configuration, the subprocess standard output and
error connected to the supervisor streams, standard input piped as the
control channel, and Setpgid set so the subprocess lives in its own process
group and termination signals delivered to the supervisor are not
automatically propagated to it. -/
theorem startServer_cmd_fixed (serverJarPath : String) :
    (startServerCmd serverJarPath).prog = "java" ∧
    (startServerCmd serverJarPath).args = ["-Xmx4G", "-jar", "server.jar", "nogui"] ∧
    "nogui" ∈ (startServerCmd serverJarPath).args ∧
    "-Xmx4G" ∈ (startServerCmd serverJarPath).args ∧
    (startServerCmd serverJarPath).dir = serverJarPath ∧
    (startServerCmd serverJarPath).stdout = StdStream.inherited ∧
    (startServerCmd serverJarPath).stderr = StdStream.inherited ∧
    (startServerCmd serverJarPath).stdinPiped = true ∧
    (startServerCmd serverJarPath).sysAttr.setpgid = true := by
  refine ⟨rfl, rfl, ?_, ?_, rfl, rfl, rfl, rfl, rfl⟩ <;> simp [startServerCmd]

/-- Digit characters are injective on single digits. -/
theorem digit_inj : ∀ a, a < 10 → ∀ b, b < 10 → digit a = digit b → a = b := by decide

/-- No digit character is a colon. -/
theorem digit_ne_colon : ∀ a, a < 10 → digit a ≠ ':' := by decide

/-- Two-digit zero-padded rendering is injective below 100. -/
theorem pad2_inj (n m : Nat) (hn : n < 100) (hm : m < 100) (h : pad2 n = pad2 m) :
    n = m := by
  simp only [pad2, List.cons.injEq, and_true] at h
  obtain ⟨h1, h2⟩ := h
  have e1 := digit_inj _ (Nat.mod_lt _ (by norm_num)) _ (Nat.mod_lt _ (by norm_num)) h1
  have e2 := digit_inj _ (Nat.mod_lt _ (by norm_num)) _ (Nat.mod_lt _ (by norm_num)) h2
  omega

/-- Four-digit zero-padded rendering is injective below 10000. -/
theorem pad4_inj (n m : Nat) (hn : n < 10000) (hm : m < 10000) (h : pad4 n = pad4 m) :
    n = m := by
  simp only [pad4, List.cons.injEq, and_true] at h
  obtain ⟨h1, h2, h3, h4⟩ := h
  have e1 := digit_inj _ (Nat.mod_lt _ (by norm_num)) _ (Nat.mod_lt _ (by norm_num)) h1
  have e2 := digit_inj _ (Nat.mod_lt _ (by norm_num)) _ (Nat.mod_lt _ (by norm_num)) h2
  have e3 := digit_inj _ (Nat.mod_lt _ (by norm_num)) _ (Nat.mod_lt _ (by norm_num)) h3
  have e4 := digit_inj _ (Nat.mod_lt _ (by norm_num)) _ (Nat.mod_lt _ (by norm_num)) h4
  omega

/-- Colon replacement distributes over list append. -/
theorem replaceColon_append (a b : List Char) :
    replaceColon (a ++ b) = replaceColon a ++ replaceColon b := List.map_append _ a b

/-- Colon replacement on a cons cell. -/
theorem replaceColon_cons (c : Char) (l : List Char) :
    replaceColon (c :: l) = (if c = ':' then '-' else c) :: replaceColon l := rfl

/-- Colon replacement leaves two-digit renderings unchanged. -/
theorem replaceColon_pad2 (n : Nat) : replaceColon (pad2 n) = pad2 n := by
  have h1 := digit_ne_colon (n / 10 % 10) (Nat.mod_lt _ (by norm_num))
  have h2 := digit_ne_colon (n % 10) (Nat.mod_lt _ (by norm_num))
  simp [pad2, replaceColon, h1, h2]

/-- Colon replacement leaves four-digit renderings unchanged. -/
theorem replaceColon_pad4 (n : Nat) : replaceColon (pad4 n) = pad4 n := by
  have h1 := digit_ne_colon (n / 1000 % 10) (Nat.mod_lt _ (by norm_num))
  have h2 := digit_ne_colon (n / 100 % 10) (Nat.mod_lt _ (by norm_num))
  have h3 := digit_ne_colon (n / 10 % 10) (Nat.mod_lt _ (by norm_num))
  have h4 := digit_ne_colon (n % 10) (Nat.mod_lt _ (by norm_num))
  simp [pad4, replaceColon, h1, h2, h3, h4]

/-- Replacing colons in the formatted timestamp turns its two colon
separators into dashes and leaves everything else unchanged. -/
theorem replaceColon_format (t : Timestamp) :
    replaceColon (formatChars t) = cleanChars t := by
  simp [formatChars, cleanChars, replaceColon_append, replaceColon_cons,
    replaceColon_pad2, replaceColon_pad4]

/-- The colon-cleaned formatted timestamp determines the calendar fields
down to the second. -/
theorem cleanChars_inj (t1 t2 : Timestamp) (h1 : t1.valid) (h2 : t2.valid)
    (h : cleanChars t1 = cleanChars t2) : t1.sameSecond t2 := by
  obtain ⟨hy1, hmo1a, hmo1b, hd1a, hd1b, hh1, hmi1, hs1⟩ := h1
  obtain ⟨hy2, hmo2a, hmo2b, hd2a, hd2b, hh2, hmi2, hs2⟩ := h2
  unfold cleanChars at h
  obtain ⟨h, hsec⟩ := List.append_inj' h rfl
  obtain ⟨h, hmin⟩ := List.append_inj' h rfl
  obtain ⟨h, hhr⟩ := List.append_inj' h rfl
  obtain ⟨h, hday⟩ := List.append_inj' h rfl
  obtain ⟨hyr, hmon⟩ := List.append_inj' h rfl
  injection hsec with _ hsec
  injection hmin with _ hmin
  injection hhr with _ hhr
  injection hday with _ hday
  injection hmon with _ hmon
  refine ⟨pad4_inj _ _ (by omega) (by omega) hyr,
    pad2_inj _ _ (by omega) (by omega) hmon,
    pad2_inj _ _ (by omega) (by omega) hday,
    pad2_inj _ _ (by omega) (by omega) hhr,
    pad2_inj _ _ (by omega) (by omega) hmin,
    pad2_inj _ _ (by omega) (by omega) hsec⟩

/-- Claim C7: the archive name is derived from the timestamp at second
resolution with colons replaced by dashes: the name contains no colon; two
instants within the same second (differing only below a second) yield
identical names, a collision; instants in different seconds yield different
names. -/
theorem archiveName_second_resolution (t1 t2 : Timestamp)
    (h1 : t1.valid) (h2 : t2.valid) :
    ':' ∉ (archiveName t1).data ∧
    (t1.sameSecond t2 → archiveName t1 = archiveName t2) ∧
    (¬ t1.sameSecond t2 → archiveName t1 ≠ archiveName t2) := by
  refine ⟨?_, ?_, ?_⟩
  · intro hmem
    have hmem' : ':' ∈ archiveChars t1 := hmem
    unfold archiveChars at hmem'
    rcases List.mem_append.mp hmem' with hmem'' | hmem''
    · rcases List.mem_append.mp hmem'' with hp | hr
      · exact absurd hp (by decide)
      · obtain ⟨c, _, hc⟩ := List.mem_map.mp hr
        by_cases hcc : c = ':'
        · rw [if_pos hcc] at hc
          exact absurd hc (by decide)
        · rw [if_neg hcc] at hc
          exact hcc hc
    · exact absurd hmem'' (by decide)
  · intro hs
    obtain ⟨e1, e2, e3, e4, e5, e6⟩ := hs
    unfold archiveName archiveChars formatChars
    rw [e1, e2, e3, e4, e5, e6]
  · intro hne heq
    apply hne
    have hdata : archiveChars t1 = archiveChars t2 := congrArg String.data heq
    unfold archiveChars at hdata
    rw [replaceColon_format, replaceColon_format] at hdata
    have hlen : (cleanChars t1).length = (cleanChars t2).length := by
      simp [cleanChars, pad2, pad4]
    obtain ⟨hleft, _⟩ := List.append_inj' hdata rfl
    obtain ⟨_, hclean⟩ := List.append_inj hleft rfl
    exact cleanChars_inj t1 t2 h1 h2 hclean

/-- Witness for archiveName_second_resolution at concrete instants. -/
theorem archiveName_second_resolution_witness :
    sampleTime.valid ∧ sampleTimeNextSec.valid ∧
    (':' ∉ (archiveName sampleTime).data ∧
    (sampleTime.sameSecond sampleTimeNextSec →
      archiveName sampleTime = archiveName sampleTimeNextSec) ∧
    (¬ sampleTime.sameSecond sampleTimeNextSec →
      archiveName sampleTime ≠ archiveName sampleTimeNextSec)) :=
  ⟨by constructor <;> norm_num [sampleTime],
    by constructor <;> norm_num [sampleTimeNextSec, sampleTime],
    archiveName_second_resolution sampleTime sampleTimeNextSec
      (by constructor <;> norm_num [sampleTime])
      (by constructor <;> norm_num [sampleTimeNextSec, sampleTime])⟩

/-- Witness for validateStartup_fail_fast at a concrete outcome. -/
theorem validateStartup_fail_fast_witness :
    (okValidateEnv.headErr = none → okValidateEnv.headResp.isSome) ∧
    ((networkOk okValidateEnv = false →
      validateStartup okValidateEnv = Except.ok ([Check.network],
        some (wrapOpt "failed to confirm network connection" okValidateEnv.headErr))) ∧
    (networkOk okValidateEnv = true → credentialOk okValidateEnv = false →
      validateStartup okValidateEnv = Except.ok ([Check.network, Check.credential],
        some (credentialErrOf okValidateEnv))) ∧
    (networkOk okValidateEnv = true → credentialOk okValidateEnv = true →
        runtimeOk okValidateEnv = false →
      ∃ e, okValidateEnv.javaErr = some e ∧
        validateStartup okValidateEnv =
          Except.ok ([Check.network, Check.credential, Check.runtime],
            some (GoError.wrap "failed to find JDK installation" e))) ∧
    (networkOk okValidateEnv = true → credentialOk okValidateEnv = true →
        runtimeOk okValidateEnv = true →
      validateStartup okValidateEnv =
        Except.ok ([Check.network, Check.credential, Check.runtime], none))) :=
  ⟨fun _ => rfl, validateStartup_fail_fast okValidateEnv (fun _ => rfl)⟩




/-- mainRun propagates a fault of the validation step. -/
theorem mainRun_fault (env : MainEnv) (f : Fault)
    (hv : validateStartup env.venv = Except.error f) :
    mainRun env = Except.error f := by
  unfold mainRun
  rw [hv]
  rfl

/-- mainRun when validation fails: the trace is registration followed by
the executed checks, and the run ends fatally. -/
theorem mainRun_validation_failed (env : MainEnv) (cs : List Check) (e : GoError)
    (hv : validateStartup env.venv = Except.ok (cs, some e)) :
    mainRun env = Except.ok
      (MainEvent.register [Signal.sigterm, Signal.sigint] 1 :: cs.map MainEvent.check,
        ExitStatus.fatalExit) := by
  unfold mainRun
  rw [hv]
  rfl

/-- mainRun when validation passes and the start step fails: the trace ends
at the start attempt and the run ends fatally. -/
theorem mainRun_start_failed (env : MainEnv) (cs : List Check) (e : GoError)
    (hv : validateStartup env.venv = Except.ok (cs, none))
    (hs : startServerResult env.start = some e) :
    mainRun env = Except.ok
      ((MainEvent.register [Signal.sigterm, Signal.sigint] 1 ::
          cs.map MainEvent.check) ++
        [MainEvent.startProc (startServerCmd env.backup.serverJarPath)],
        ExitStatus.fatalExit) := by
  unfold mainRun
  rw [hv]
  simp only [exceptBind_ok]
  rw [hs]
  rfl

/-- mainRun when validation and start succeed and the stop step fails: the
trace is registration, checks, start, one receive and the stop events, and
the run ends fatally. -/
theorem mainRun_stop_failed (env : MainEnv) (cs : List Check) (e : GoError)
    (hv : validateStartup env.venv = Except.ok (cs, none))
    (hs : startServerResult env.start = none)
    (hstop : (shutdownServer env.stop).2 = some e) :
    mainRun env = Except.ok
      (((MainEvent.register [Signal.sigterm, Signal.sigint] 1 ::
          cs.map MainEvent.check) ++
        [MainEvent.startProc (startServerCmd env.backup.serverJarPath),
          MainEvent.receive env.sig]) ++
        (shutdownServer env.stop).1.map MainEvent.stopEv,
        ExitStatus.fatalExit) := by
  unfold mainRun
  rw [hv]
  simp only [exceptBind_ok]
  rw [hs]
  simp only []
  rw [hstop]
  rfl

/-- mainRun when validation, start and stop all succeed: the backup step
runs after the stop events, and the run ends fatally iff backupWorld
returned an error. -/
theorem mainRun_backup_ran (env : MainEnv) (cs : List Check)
    (hv : validateStartup env.venv = Except.ok (cs, none))
    (hs : startServerResult env.start = none)
    (hstop : (shutdownServer env.stop).2 = none) :
    mainRun env = Except.ok
      ((((MainEvent.register [Signal.sigterm, Signal.sigint] 1 ::
          cs.map MainEvent.check) ++
        [MainEvent.startProc (startServerCmd env.backup.serverJarPath),
          MainEvent.receive env.sig]) ++
        (shutdownServer env.stop).1.map MainEvent.stopEv) ++
        (backupWorld env.backup).1.map MainEvent.backupEv,
        match (backupWorld env.backup).2 with
        | some _ => ExitStatus.fatalExit
        | none => ExitStatus.success) := by
  unfold mainRun
  rw [hv]
  simp only [exceptBind_ok]
  rw [hs]
  simp only []
  rw [hstop]
  simp only []
  cases hb : (backupWorld env.backup).2 with
  | some e => rfl
  | none => rfl

/-- A stop environment in which the write failed or the wait did not report
a zero-status exit makes shutdownServer return an error. -/
theorem shutdownServer_fails (senv : StopEnv)
    (h : senv.writeErr ≠ none ∨ senv.wait ≠ WaitOutcome.exited 0) :
    ∃ e, (shutdownServer senv).2 = some e := by
  obtain ⟨we, w⟩ := senv
  cases we with
  | some e => exact ⟨_, rfl⟩
  | none =>
      cases w with
      | exited s =>
          cases s with
          | zero => simp at h
          | succ n => exact ⟨_, rfl⟩
      | waitFailed e => exact ⟨_, rfl⟩

/-- Claim C1 evaluated at the failing input: compression succeeds, the
upload fails with a conflict because the destination object already exists,
yet the delete of the local archive is still performed and backupWorld
reports success - the source discards the error of the uploadFile call at
main.go line 129, so the cleanup does not wait for a confirmed successful
upload. -/
theorem backupWorld_deletes_despite_upload_conflict :
    (uploadFile conflictBackupEnv.upload).isSome = true ∧
    BackupEvent.delete (archiveName sampleTime) "/srv/minecraft" ∈
      (backupWorld conflictBackupEnv).1 ∧
    (backupWorld conflictBackupEnv).2 = none := by
  refine ⟨rfl, ?_, rfl⟩
  simp [backupWorld, conflictBackupEnv]

/-- Claim C2 counterexample: compression and upload both succeed and only
the delete of the local archive fails, yet backupWorld reports failure
rather than success, and the whole run ends in log.Fatal rather than a
successful exit. -/
theorem cleanup_failure_aborts_run :
    cleanupFailBackupEnv.compressErr = none ∧
    uploadFile cleanupFailBackupEnv.upload = none ∧
    (backupWorld cleanupFailBackupEnv).2 =
      some (GoError.wrap "failed to delete local world archive"
        (GoError.msg "exit status 1")) ∧
    (mainRun cleanupFailMainEnv).toOption.map Prod.snd = some ExitStatus.fatalExit := by
  exact ⟨rfl, rfl, rfl, rfl⟩

/-- Claim C2 (amended): a failure of the local-archive cleanup step is
fatal, not non-fatal: when compression succeeded but the delete fails,
backupWorld returns an error wrapping the delete cause, and every whole-run
with that backup environment ends in log.Fatal; the step whose failure does
not change the outcome is instead the upload, whose error the source
ignores - with compression and delete succeeding, backupWorld succeeds
regardless of the upload outcome. -/
theorem cleanup_failure_fatal (env : BackupEnv) (e : GoError)
    (hc : env.compressErr = none) (hd : env.deleteErr = some e) :
    (backupWorld env).2 =
      some (GoError.wrap "failed to delete local world archive" e) ∧
    (∀ menv : MainEnv, ∀ tr st, menv.backup = env →
      mainRun menv = Except.ok (tr, st) → st = ExitStatus.fatalExit) ∧
    (∀ env2 : BackupEnv, env2.compressErr = none → env2.deleteErr = none →
      (backupWorld env2).2 = none) := by
  have hb : (backupWorld env).2 =
      some (GoError.wrap "failed to delete local world archive" e) := by
    simp [backupWorld, hc, hd]
  refine ⟨hb, ?_, ?_⟩
  · intro menv tr st hbe hok
    cases hval : validateStartup menv.venv with
    | error f =>
        rw [mainRun_fault menv f hval] at hok
        exact absurd hok (by simp)
    | ok p =>
        obtain ⟨cs, vres⟩ := p
        cases vres with
        | some ev =>
            rw [mainRun_validation_failed menv cs ev hval] at hok
            simp only [Except.ok.injEq, Prod.mk.injEq] at hok
            exact hok.2.symm
        | none =>
            cases hstart : startServerResult menv.start with
            | some ev =>
                rw [mainRun_start_failed menv cs ev hval hstart] at hok
                simp only [Except.ok.injEq, Prod.mk.injEq] at hok
                exact hok.2.symm
            | none =>
                cases hstop : (shutdownServer menv.stop).2 with
                | some ev =>
                    rw [mainRun_stop_failed menv cs ev hval hstart hstop] at hok
                    simp only [Except.ok.injEq, Prod.mk.injEq] at hok
                    exact hok.2.symm
                | none =>
                    rw [mainRun_backup_ran menv cs hval hstart hstop] at hok
                    rw [hbe, hb] at hok
                    simp only [Except.ok.injEq, Prod.mk.injEq] at hok
                    exact hok.2.symm
  · intro env2 hc2 hd2
    simp [backupWorld, hc2, hd2]

/-- Witness for cleanup_failure_fatal at a concrete outcome. -/
theorem cleanup_failure_fatal_witness :
    cleanupFailBackupEnv.compressErr = none ∧
    cleanupFailBackupEnv.deleteErr = some (GoError.msg "exit status 1") ∧
    ((backupWorld cleanupFailBackupEnv).2 =
      some (GoError.wrap "failed to delete local world archive"
        (GoError.msg "exit status 1")) ∧
    (∀ menv : MainEnv, ∀ tr st, menv.backup = cleanupFailBackupEnv →
      mainRun menv = Except.ok (tr, st) → st = ExitStatus.fatalExit) ∧
    (∀ env2 : BackupEnv, env2.compressErr = none → env2.deleteErr = none →
      (backupWorld env2).2 = none)) :=
  ⟨rfl, rfl, cleanup_failure_fatal cleanupFailBackupEnv (GoError.msg "exit status 1")
    rfl rfl⟩

/-- Claim C3: the backup pipeline runs only after the stop step returned
successfully: in every run whose stop environment makes the write fail or
the wait report a non-zero or failed exit, the trace contains no backup
operation at all - no compression, upload or delete - and the run ends
fatally. -/
theorem no_backup_after_stop_failure (env : MainEnv) (tr : List MainEvent)
    (st : ExitStatus) (hok : mainRun env = Except.ok (tr, st))
    (hfail : env.stop.writeErr ≠ none ∨ env.stop.wait ≠ WaitOutcome.exited 0) :
    (∀ be, MainEvent.backupEv be ∉ tr) ∧ st = ExitStatus.fatalExit := by
  obtain ⟨estop, hstop⟩ := shutdownServer_fails env.stop hfail
  cases hval : validateStartup env.venv with
  | error f =>
      rw [mainRun_fault env f hval] at hok
      exact absurd hok (by simp)
  | ok p =>
      obtain ⟨cs, vres⟩ := p
      cases vres with
      | some e =>
          rw [mainRun_validation_failed env cs e hval] at hok
          simp only [Except.ok.injEq, Prod.mk.injEq] at hok
          obtain ⟨htr, hst⟩ := hok
          subst htr; subst hst
          refine ⟨?_, rfl⟩
          intro be
          simp [List.mem_cons, List.mem_map]
      | none =>
          cases hstart : startServerResult env.start with
          | some e =>
              rw [mainRun_start_failed env cs e hval hstart] at hok
              simp only [Except.ok.injEq, Prod.mk.injEq] at hok
              obtain ⟨htr, hst⟩ := hok
              subst htr; subst hst
              refine ⟨?_, rfl⟩
              intro be
              simp [List.mem_append, List.mem_cons, List.mem_map]
          | none =>
              rw [mainRun_stop_failed env cs estop hval hstart hstop] at hok
              simp only [Except.ok.injEq, Prod.mk.injEq] at hok
              obtain ⟨htr, hst⟩ := hok
              subst htr; subst hst
              refine ⟨?_, rfl⟩
              intro be
              simp [List.mem_append, List.mem_cons, List.mem_map]

/-- Witness for no_backup_after_stop_failure at a concrete run. -/
theorem no_backup_after_stop_failure_witness :
    mainRun stopFailMainEnv = Except.ok (stopFailTrace, ExitStatus.fatalExit) ∧
    (stopFailMainEnv.stop.writeErr ≠ none ∨
      stopFailMainEnv.stop.wait ≠ WaitOutcome.exited 0) ∧
    ((∀ be, MainEvent.backupEv be ∉ stopFailTrace) ∧
      ExitStatus.fatalExit = ExitStatus.fatalExit) :=
  ⟨rfl, Or.inr (by decide),
    no_backup_after_stop_failure stopFailMainEnv stopFailTrace ExitStatus.fatalExit
      rfl (Or.inr (by decide))⟩

/-- The receive count distributes over append. -/
theorem recvCount_append (a b : List MainEvent) :
    recvCount (a ++ b) = recvCount a + recvCount b := by
  simp [recvCount, List.filter_append]

/-- Check events are not receives. -/
theorem recvCount_checks (cs : List Check) :
    recvCount (cs.map MainEvent.check) = 0 := by
  induction cs with
  | nil => rfl
  | cons c cs ih =>
      rw [List.map_cons, show (MainEvent.check c :: cs.map MainEvent.check) =
        [MainEvent.check c] ++ cs.map MainEvent.check from rfl,
        recvCount_append, ih]
      rfl

/-- Stop events are not receives. -/
theorem recvCount_stops (l : List StopEvent) :
    recvCount (l.map MainEvent.stopEv) = 0 := by
  induction l with
  | nil => rfl
  | cons e l ih =>
      rw [List.map_cons, show (MainEvent.stopEv e :: l.map MainEvent.stopEv) =
        [MainEvent.stopEv e] ++ l.map MainEvent.stopEv from rfl,
        recvCount_append, ih]
      rfl

/-- Backup events are not receives. -/
theorem recvCount_backups (l : List BackupEvent) :
    recvCount (l.map MainEvent.backupEv) = 0 := by
  induction l with
  | nil => rfl
  | cons e l ih =>
      rw [List.map_cons, show (MainEvent.backupEv e :: l.map MainEvent.backupEv) =
        [MainEvent.backupEv e] ++ l.map MainEvent.backupEv from rfl,
        recvCount_append, ih]
      rfl

/-- A leading registration event does not change the receive count. -/
theorem recvCount_cons_reg (sigs : List Signal) (c : Nat) (l : List MainEvent) :
    recvCount (MainEvent.register sigs c :: l) = recvCount l := by
  simp [recvCount, List.filter_cons]

/-- The start-and-receive pair counts exactly one receive. -/
theorem recvCount_startRecv (cmd : CmdSpec) (s : Signal) :
    recvCount [MainEvent.startProc cmd, MainEvent.receive s] = 1 := rfl

/-- Erasure is the identity on check events. -/
theorem eraseSig_check (c : Check) :
    eraseSigPayload (MainEvent.check c) = MainEvent.check c := rfl

/-- Erasure is the identity on stop events. -/
theorem eraseSig_stop (e : StopEvent) :
    eraseSigPayload (MainEvent.stopEv e) = MainEvent.stopEv e := rfl

/-- Erasure is the identity on backup events. -/
theorem eraseSig_backup (e : BackupEvent) :
    eraseSigPayload (MainEvent.backupEv e) = MainEvent.backupEv e := rfl

/-- Erasure maps every receive to a fixed canonical receive. -/
theorem eraseSig_recv (s : Signal) :
    eraseSigPayload (MainEvent.receive s) = MainEvent.receive Signal.sigterm := rfl

/-- Claim C9: the signal listener is registered first - before any
validation check and before the subprocess start - for exactly the two
termination signal kinds SIGTERM and SIGINT, on a channel with a single
buffered slot; the flow performs at most one blocking receive, and exactly
one whenever validation and start succeeded; and the two signal kinds
trigger identical behavior: two runs differing only in the delivered
signal kind have the same trace apart from the payload of the receive
event, and the same exit status. -/
theorem signal_listener_single_shot (env : MainEnv) (s1 s2 : Signal)
    (tr1 tr2 : List MainEvent) (st1 st2 : ExitStatus)
    (h1 : mainRun { env with sig := s1 } = Except.ok (tr1, st1))
    (h2 : mainRun { env with sig := s2 } = Except.ok (tr2, st2)) :
    (∃ rest, tr1 = MainEvent.register [Signal.sigterm, Signal.sigint] 1 :: rest) ∧
    recvCount tr1 ≤ 1 ∧
    (validationPassed env.venv → startServerResult env.start = none →
      recvCount tr1 = 1) ∧
    tr1.map eraseSigPayload = tr2.map eraseSigPayload ∧
    st1 = st2 := by
  cases hval : validateStartup env.venv with
  | error f =>
      rw [mainRun_fault { env with sig := s1 } f hval] at h1
      exact absurd h1 (by simp)
  | ok p =>
      obtain ⟨cs, vres⟩ := p
      cases vres with
      | some e =>
          rw [mainRun_validation_failed { env with sig := s1 } cs e hval] at h1
          rw [mainRun_validation_failed { env with sig := s2 } cs e hval] at h2
          simp only [Except.ok.injEq, Prod.mk.injEq] at h1 h2
          obtain ⟨htr1, hst1⟩ := h1
          obtain ⟨htr2, hst2⟩ := h2
          subst htr1; subst hst1; subst htr2; subst hst2
          refine ⟨⟨_, rfl⟩, ?_, ?_, rfl, rfl⟩
          · rw [recvCount_cons_reg, recvCount_checks]
            norm_num
          · intro hvp _
            obtain ⟨cs0, hv0⟩ := hvp
            rw [hval] at hv0
            simp at hv0
      | none =>
          cases hstart : startServerResult env.start with
          | some e =>
              rw [mainRun_start_failed { env with sig := s1 } cs e hval hstart] at h1
              rw [mainRun_start_failed { env with sig := s2 } cs e hval hstart] at h2
              simp only [Except.ok.injEq, Prod.mk.injEq] at h1 h2
              obtain ⟨htr1, hst1⟩ := h1
              obtain ⟨htr2, hst2⟩ := h2
              subst htr1; subst hst1; subst htr2; subst hst2
              refine ⟨⟨_, rfl⟩, ?_, ?_, rfl, rfl⟩
              · rw [recvCount_append, recvCount_cons_reg, recvCount_checks]
                norm_num [recvCount]
              · intro _ hss
                exact absurd hss (by simp)
          | none =>
              cases hstop : (shutdownServer env.stop).2 with
              | some e =>
                  rw [mainRun_stop_failed { env with sig := s1 } cs e hval hstart
                    hstop] at h1
                  rw [mainRun_stop_failed { env with sig := s2 } cs e hval hstart
                    hstop] at h2
                  simp only [Except.ok.injEq, Prod.mk.injEq] at h1 h2
                  obtain ⟨htr1, hst1⟩ := h1
                  obtain ⟨htr2, hst2⟩ := h2
                  subst htr1; subst hst1; subst htr2; subst hst2
                  refine ⟨⟨_, rfl⟩, ?_, ?_, ?_, rfl⟩
                  · rw [recvCount_append, recvCount_append, recvCount_cons_reg,
                      recvCount_checks, recvCount_startRecv, recvCount_stops]
                  · intro _ _
                    rw [recvCount_append, recvCount_append, recvCount_cons_reg,
                      recvCount_checks, recvCount_startRecv, recvCount_stops]
                  · simp only [List.map_append, List.map_cons, List.map_nil,
                      eraseSig_recv]
              | none =>
                  rw [mainRun_backup_ran { env with sig := s1 } cs hval hstart
                    hstop] at h1
                  rw [mainRun_backup_ran { env with sig := s2 } cs hval hstart
                    hstop] at h2
                  simp only [Except.ok.injEq, Prod.mk.injEq] at h1 h2
                  obtain ⟨htr1, hst1⟩ := h1
                  obtain ⟨htr2, hst2⟩ := h2
                  subst htr1; subst hst1; subst htr2; subst hst2
                  refine ⟨⟨_, rfl⟩, ?_, ?_, ?_, rfl⟩
                  · rw [recvCount_append, recvCount_append, recvCount_append,
                      recvCount_cons_reg, recvCount_checks, recvCount_startRecv,
                      recvCount_stops, recvCount_backups]
                  · intro _ _
                    rw [recvCount_append, recvCount_append, recvCount_append,
                      recvCount_cons_reg, recvCount_checks, recvCount_startRecv,
                      recvCount_stops, recvCount_backups]
                  · simp only [List.map_append, List.map_cons, List.map_nil,
                      eraseSig_recv]

/-- Witness for signal_listener_single_shot at two concrete runs. -/
theorem signal_listener_single_shot_witness :
    mainRun { okMainEnv with sig := Signal.sigterm } =
      Except.ok (okTrace Signal.sigterm, ExitStatus.success) ∧
    mainRun { okMainEnv with sig := Signal.sigint } =
      Except.ok (okTrace Signal.sigint, ExitStatus.success) ∧
    ((∃ rest, okTrace Signal.sigterm =
        MainEvent.register [Signal.sigterm, Signal.sigint] 1 :: rest) ∧
    recvCount (okTrace Signal.sigterm) ≤ 1 ∧
    (validationPassed okMainEnv.venv → startServerResult okMainEnv.start = none →
      recvCount (okTrace Signal.sigterm) = 1) ∧
    (okTrace Signal.sigterm).map eraseSigPayload =
      (okTrace Signal.sigint).map eraseSigPayload ∧
    ExitStatus.success = ExitStatus.success) :=
  ⟨rfl, rfl,
    signal_listener_single_shot okMainEnv Signal.sigterm Signal.sigint
      (okTrace Signal.sigterm) (okTrace Signal.sigint)
      ExitStatus.success ExitStatus.success rfl rfl⟩
